import Mathlib

/-!
Verification of the weather MCP tool module (`src/weather.py`) against its
design specification.

The module is embedded shallowly:

* JSON values parsed from HTTP response bodies become the inductive `Json`.
* Python runtime semantics used by the module — truthiness (`if not x`),
  membership (`k in x`), subscription (`x[k]`), `dict.get` with a default,
  iteration, slicing, and `str()` rendering inside f-strings — become total
  Lean functions returning `Except PyError _` where the Python operation can
  raise.
* The HTTP transport (`httpx`) is external to the module; it is abstracted as
  an oracle `FetchEnv : String → FetchOutcome` mapping each URL to the outcome
  of a single GET request (a parsed 2xx JSON body, or one of the failure modes
  the module's `try/except` can observe).
* Python floats appear only where `get_forecast` interpolates the latitude and
  longitude into the points URL; the already-rendered decimal strings are
  passed instead, since no claim depends on float semantics.
* Each tool returns a pair: the Python outcome (`Except PyError String`: a
  returned string, or an uncaught exception) together with the list of URLs
  for which an HTTP request was issued, in order, so that fetch-target
  properties can be stated.
-/

/-- A JSON value as produced by parsing a response body. Numbers are
restricted to integers; the module never computes with numbers, it only
renders them. -/
inductive Json where
  | null : Json
  | bool (b : Bool) : Json
  | num (n : Int) : Json
  | str (s : String) : Json
  | arr (elements : List Json) : Json
  | obj (fields : List (String × Json)) : Json

/-- Python exceptions the embedded operations can raise. -/
inductive PyError where
  | keyError (k : String) : PyError
  | typeError (msg : String) : PyError
  | attributeError (msg : String) : PyError
  | httpStatusError (status : Nat) : PyError
  | connectError : PyError
  | timeoutError : PyError
  | jsonDecodeError : PyError
deriving DecidableEq

/-- Lookup of a key in a JSON object's field list (Python dict lookup; keys of
a parsed JSON object are unique). -/
def lookupField : List (String × Json) → String → Option Json
  | [], _ => none
  | (k, v) :: fs, key => if k = key then some v else lookupField fs key

/-- Python truthiness of a parsed JSON value: `None`, `False`, `0`, `""`,
`[]` and `\x7b\x7d` are falsy, everything else truthy. -/
def Json.truthy : Json → Bool
  | .null => false
  | .bool b => b
  | .num n => n != 0
  | .str s => s != ""
  | .arr xs => !xs.isEmpty
  | .obj fs => !fs.isEmpty

/-- Substring test, as Python `needle in haystack` on strings (the empty
needle is contained in every string). -/
def isSubstringOf (needle hay : String) : Bool :=
  if needle = "" then true
  else (hay.splitOn needle).length != 1

/-- Python `k in x` for a string key `k`: key membership for dicts, element
membership for lists, substring test for strings; a `TypeError` otherwise. -/
def Json.containsKey (j : Json) (k : String) : Except PyError Bool :=
  match j with
  | .obj fs => .ok (lookupField fs k).isSome
  | .arr xs => .ok (xs.any (fun x => match x with | .str s => s == k | _ => false))
  | .str s => .ok (isSubstringOf k s)
  | _ => .error (.typeError "argument is not iterable")

/-- Python `x[k]` for a string key `k`: dict lookup raising `KeyError` when
absent; `TypeError` for lists and strings (indices must be integers) and for
non-subscriptable values. -/
def Json.getItem (j : Json) (k : String) : Except PyError Json :=
  match j with
  | .obj fs =>
    match lookupField fs k with
    | some v => .ok v
    | none => .error (.keyError k)
  | .arr _ => .error (.typeError "list indices must be integers")
  | .str _ => .error (.typeError "string indices must be integers")
  | _ => .error (.typeError "object is not subscriptable")

/-- Python `x.get(k, d)`: defaulted dict lookup; an `AttributeError` when `x`
is not a dict. -/
def Json.dictGet (j : Json) (k : String) (d : Json) : Except PyError Json :=
  match j with
  | .obj fs => .ok ((lookupField fs k).getD d)
  | _ => .error (.attributeError "object has no attribute get")

/-- Python iteration over a parsed JSON value: lists yield their elements,
strings their characters (as one-character strings), dicts their keys; a
`TypeError` otherwise. -/
def Json.iterateItems (j : Json) : Except PyError (List Json) :=
  match j with
  | .arr xs => .ok xs
  | .str s => .ok (s.toList.map (fun c => Json.str c.toString))
  | .obj fs => .ok (fs.map (fun p => Json.str p.1))
  | _ => .error (.typeError "object is not iterable")

/-- Python `x[:n]`: prefix slicing for lists and strings; a `TypeError` for
other values. -/
def Json.sliceTo (j : Json) (n : Nat) : Except PyError Json :=
  match j with
  | .arr xs => .ok (.arr (xs.take n))
  | .str s => .ok (.str (String.mk (s.toList.take n)))
  | _ => .error (.typeError "object is not subscriptable")

/-- An apostrophe, as used by Python `repr` around strings. -/
def singleQuote : String := (Char.ofNat 39).toString

mutual
/-- Python `repr()` of a parsed JSON value (string escaping inside `repr` is
not modelled; no claim depends on it). -/
def Json.pyRepr : Json → String
  | .null => "None"
  | .bool true => "True"
  | .bool false => "False"
  | .num n => toString n
  | .str s => singleQuote ++ s ++ singleQuote
  | .arr xs => "[" ++ Json.pyReprList xs ++ "]"
  | .obj fs => "\x7b" ++ Json.pyReprFields fs ++ "\x7d"

/-- Comma-separated `repr`s of list elements. -/
def Json.pyReprList : List Json → String
  | [] => ""
  | [x] => Json.pyRepr x
  | x :: xs => Json.pyRepr x ++ ", " ++ Json.pyReprList xs

/-- Comma-separated `repr`s of dict entries. -/
def Json.pyReprFields : List (String × Json) → String
  | [] => ""
  | [(k, v)] => singleQuote ++ k ++ singleQuote ++ ": " ++ Json.pyRepr v
  | (k, v) :: fs =>
    singleQuote ++ k ++ singleQuote ++ ": " ++ Json.pyRepr v ++ ", " ++ Json.pyReprFields fs
end

/-- Python `str()` of a parsed JSON value, as applied by an f-string: strings
are unquoted, containers render via `repr`. -/
def Json.pyStr : Json → String
  | .str s => s
  | j => j.pyRepr

/-- Outcome of one HTTP GET request to a given URL, as observable inside
`make_nws_request`'s `try` block: a 2xx response whose body parsed as JSON,
or one of the failure modes (network error, timeout, non-2xx status from
`raise_for_status`, unparseable body from `res.json()`). -/
inductive FetchOutcome where
  | success (body : Json) : FetchOutcome
  | networkError : FetchOutcome
  | timeout : FetchOutcome
  | httpError (status : Nat) : FetchOutcome
  | parseError : FetchOutcome

/-- The HTTP transport abstracted as an oracle: the outcome of a GET request
for each URL. -/
def FetchEnv : Type := String → FetchOutcome

def NWS_API_BASE : String := "https://api.weather.gov"

def USER_AGENT : String := "weather-app/1.0"

/-- Body of `make_nws_request`'s `try` block:
`res = await client.get(url, ...); res.raise_for_status(); return res.json()`.
Each failure mode surfaces as the exception the corresponding `httpx` or
parsing step raises. -/
def tryGetJson (outcome : FetchOutcome) : Except PyError Json :=
  match outcome with
  | .success body => .ok body
  | .networkError => .error .connectError
  | .timeout => .error .timeoutError
  | .httpError status => .error (.httpStatusError status)
  | .parseError => .error .jsonDecodeError

/-- Embeds `make_nws_request` (src/weather.py lines 13-26): the `try` block
returns the parsed JSON; `except Exception` catches every failure, logs it,
and falls off the end of the function, returning `None`. -/
def make_nws_request (env : FetchEnv) (url : String) : Option Json :=
  match tryGetJson (env url) with
  | .ok j => some j
  | .error _ => none

/-- Embeds `format_alert` (src/weather.py lines 29-38): bracket access to
`feature["properties"]`, then the f-string renders the five `props.get`
lookups in order of appearance. -/
def format_alert (feature : Json) : Except PyError String := do
  let props ← feature.getItem "properties"
  let event ← props.dictGet "event" (.str "Unknown")
  let areaDesc ← props.dictGet "areaDesc" (.str "Unknown")
  let severity ← props.dictGet "severity" (.str "Unknown")
  let description ← props.dictGet "description" (.str "No description available")
  let instruction ← props.dictGet "instruction" (.str "No specific instructions provided")
  return "\nEvent: " ++ event.pyStr ++ "\nArea: " ++ areaDesc.pyStr ++
    "\nSeverity: " ++ severity.pyStr ++ "\nDescription: " ++ description.pyStr ++
    "\nInstructions: " ++ instruction.pyStr ++ "\n"

/-- Embeds `get_alerts` (src/weather.py lines 41-57). The second component of
the result is the list of URLs for which an HTTP request was issued, in
order. `if not data or "features" not in data` evaluates truthiness and then
(short-circuit) membership; `data["features"]` is bracket access. -/
def get_alerts (env : FetchEnv) (state : String) : Except PyError String × List String :=
  let url := s!"{NWS_API_BASE}/alerts/active/area/{state}"
  let reqs := [url]
  match make_nws_request env url with
  | none => (.ok "Unable to fetch alerts or no alerts found.", reqs)
  | some data =>
    if !data.truthy then (.ok "Unable to fetch alerts or no alerts found.", reqs)
    else
      match data.containsKey "features" with
      | .error e => (.error e, reqs)
      | .ok hasFeatures =>
        if !hasFeatures then (.ok "Unable to fetch alerts or no alerts found.", reqs)
        else
          match data.getItem "features" with
          | .error e => (.error e, reqs)
          | .ok features =>
            if !features.truthy then (.ok "No active alerts for this state.", reqs)
            else
              match features.iterateItems with
              | .error e => (.error e, reqs)
              | .ok items =>
                match items.mapM format_alert with
                | .error e => (.error e, reqs)
                | .ok alerts => (.ok (String.intercalate "\n---\n" alerts), reqs)

/-- Body of the `for period in periods[:5]` loop of `get_forecast`
(src/weather.py lines 88-93): the f-string evaluates the six bracket
accesses in order of appearance and renders each with `str()`. -/
def periodBlock (period : Json) : Except PyError String := do
  let name ← period.getItem "name"
  let temperature ← period.getItem "temperature"
  let temperatureUnit ← period.getItem "temperatureUnit"
  let windSpeed ← period.getItem "windSpeed"
  let windDirection ← period.getItem "windDirection"
  let detailedForecast ← period.getItem "detailedForecast"
  return "\n" ++ name.pyStr ++ "\nTemperature: " ++ temperature.pyStr ++ "°" ++
    temperatureUnit.pyStr ++ "\nWind: " ++ windSpeed.pyStr ++ " " ++ windDirection.pyStr ++
    "\nForecast: " ++ detailedForecast.pyStr ++ "\n"

/-- Number of forecast periods rendered (`periods_count = 5`,
src/weather.py line 86). -/
def periods_count : Nat := 5

/-- Second fetch/validate stage and period formatting of `get_forecast`
(src/weather.py lines 77-95), given the outcome of the second fetch and its
URL `u`. -/
def get_forecast_stage2 (reqs0 : List String)
    (fetched : Option Json) (u : String) : Except PyError String × List String :=
  let reqs := reqs0 ++ [u]
  match fetched with
  | none => (.ok "Unable to fetch forecast data for this location.", reqs)
  | some forecast_data =>
    if !forecast_data.truthy then
      (.ok "Unable to fetch forecast data for this location.", reqs)
    else
      match forecast_data.containsKey "properties" with
      | .error e => (.error e, reqs)
      | .ok hasProperties =>
        if !hasProperties then
          (.ok "Invalid forecast data received: missing period information.", reqs)
        else
          match forecast_data.getItem "properties" with
          | .error e => (.error e, reqs)
          | .ok forecastProps =>
            match forecastProps.containsKey "periods" with
            | .error e => (.error e, reqs)
            | .ok hasPeriods =>
              if !hasPeriods then
                (.ok "Invalid forecast data received: missing period information.", reqs)
              else
                match forecast_data.getItem "properties" with
                | .error e => (.error e, reqs)
                | .ok forecastProps2 =>
                  match forecastProps2.getItem "periods" with
                  | .error e => (.error e, reqs)
                  | .ok periods =>
                    match periods.sliceTo periods_count with
                    | .error e => (.error e, reqs)
                    | .ok sliced =>
                      match sliced.iterateItems with
                      | .error e => (.error e, reqs)
                      | .ok items =>
                        match items.mapM periodBlock with
                        | .error e => (.error e, reqs)
                        | .ok forecasts => (.ok (String.intercalate "\n---\n" forecasts), reqs)

/-- Embeds `get_forecast` (src/weather.py lines 60-95). The latitude and
longitude arrive as their `str()` renderings (no claim depends on float
semantics). The second component of the result is the list of URLs for which
an HTTP request was issued, in order: `make_nws_request(forecast_url)` with a
non-string `forecast_url` makes `client.get` raise inside the helper's `try`
before any request is issued, so only string forecast URLs are recorded. -/
def get_forecast (env : FetchEnv) (latitude longitude : String) :
    Except PyError String × List String :=
  let points_url := s!"{NWS_API_BASE}/points/{latitude},{longitude}"
  let reqs := [points_url]
  match make_nws_request env points_url with
  | none => (.ok "Unable to fetch points data for this location.", reqs)
  | some points_data =>
    if !points_data.truthy then (.ok "Unable to fetch points data for this location.", reqs)
    else
      match points_data.containsKey "properties" with
      | .error e => (.error e, reqs)
      | .ok hasProperties =>
        if !hasProperties then
          (.ok "Invalid points data received: missing forecast information.", reqs)
        else
          match points_data.getItem "properties" with
          | .error e => (.error e, reqs)
          | .ok pointsProps =>
            match pointsProps.containsKey "forecast" with
            | .error e => (.error e, reqs)
            | .ok hasForecast =>
              if !hasForecast then
                (.ok "Invalid points data received: missing forecast information.", reqs)
              else
                match points_data.getItem "properties" with
                | .error e => (.error e, reqs)
                | .ok pointsProps2 =>
                  match pointsProps2.getItem "forecast" with
                  | .error e => (.error e, reqs)
                  | .ok forecast_url =>
                    match forecast_url with
                    | .str u => get_forecast_stage2 reqs (make_nws_request env u) u
                    | _ => (.ok "Unable to fetch forecast data for this location.", reqs)

/-- C3: for every URL, `make_nws_request` returns the parsed JSON body on a
successful (2xx) response, and on any failure — network error, timeout,
non-2xx status, malformed JSON — it returns the "no result" sentinel `none`;
being a total function into `Option Json`, it never raises or propagates the
error to its caller. -/
theorem make_nws_request_total_sentinel (env : FetchEnv) (url : String) :
    make_nws_request env url =
      match env url with
      | .success body => some body
      | .networkError => none
      | .timeout => none
      | .httpError _ => none
      | .parseError => none := by
  unfold make_nws_request tryGetJson
  cases env url <;> rfl

/-- C10: a successfully fetched response parsing to the empty JSON object is
indistinguishable from a failed fetch at the tool layer: `get_forecast` given
an empty-object points response returns the fetch-stage message, and
`get_alerts` given an empty-object response returns its fetch-stage
message. -/
theorem empty_object_response_indistinguishable (env : FetchEnv)
    (latitude longitude state : String) :
    (env (s!"{NWS_API_BASE}/points/{latitude},{longitude}") = .success (Json.obj []) →
      (get_forecast env latitude longitude).1 =
        .ok "Unable to fetch points data for this location.") ∧
    (env (s!"{NWS_API_BASE}/alerts/active/area/{state}") = .success (Json.obj []) →
      (get_alerts env state).1 = .ok "Unable to fetch alerts or no alerts found.") := by
  constructor
  · intro h
    simp [get_forecast, make_nws_request, tryGetJson, h, Json.truthy]
  · intro h
    simp [get_alerts, make_nws_request, tryGetJson, h, Json.truthy]

/-- Witness for C10 at a concrete oracle answering every URL with `\x7b\x7d`. -/
theorem empty_object_response_indistinguishable_witness :
    (get_forecast (fun _ => .success (Json.obj [])) "39.0" "-77.0").1 =
        .ok "Unable to fetch points data for this location." ∧
    (get_alerts (fun _ => .success (Json.obj [])) "CA").1 =
        .ok "Unable to fetch alerts or no alerts found." :=
  ⟨(empty_object_response_indistinguishable (fun _ => .success (Json.obj []))
      "39.0" "-77.0" "CA").1 rfl,
   (empty_object_response_indistinguishable (fun _ => .success (Json.obj []))
      "39.0" "-77.0" "CA").2 rfl⟩

/-- C5: `get_alerts` returns "Unable to fetch alerts or no alerts found."
when the fetch result is absent or lacks a `features` key, returns exactly
"No active alerts for this state." when `features` is present but empty, and
the two messages are distinct strings. -/
theorem get_alerts_messages (env : FetchEnv) (state : String) :
    (make_nws_request env (s!"{NWS_API_BASE}/alerts/active/area/{state}") = none →
      (get_alerts env state).1 = .ok "Unable to fetch alerts or no alerts found.") ∧
    (∀ fs, make_nws_request env (s!"{NWS_API_BASE}/alerts/active/area/{state}") =
        some (Json.obj fs) → lookupField fs "features" = none →
      (get_alerts env state).1 = .ok "Unable to fetch alerts or no alerts found.") ∧
    (∀ fs, make_nws_request env (s!"{NWS_API_BASE}/alerts/active/area/{state}") =
        some (Json.obj fs) → lookupField fs "features" = some (Json.arr []) →
      (get_alerts env state).1 = .ok "No active alerts for this state.") ∧
    ("Unable to fetch alerts or no alerts found." ≠ "No active alerts for this state.") := by
  refine ⟨?_, ?_, ?_, by decide⟩
  · intro h
    simp [get_alerts, h]
  · intro fs h hf
    match fs with
    | [] => simp [get_alerts, h, Json.truthy]
    | f :: fs2 => simp [get_alerts, h, Json.truthy, Json.containsKey, hf]
  · intro fs h hf
    match fs with
    | [] => simp [lookupField] at hf
    | f :: fs2 =>
      simp [get_alerts, h, Json.truthy, Json.containsKey, hf, Json.getItem]

/-- Witness for C5: a failed fetch yields the fetch-or-empty message, and a
response with an empty `features` list yields the no-alerts message. -/
theorem get_alerts_messages_witness :
    (get_alerts (fun _ => .networkError) "CA").1 =
      .ok "Unable to fetch alerts or no alerts found." ∧
    (get_alerts (fun _ => .success (Json.obj [("features", Json.arr [])])) "CA").1 =
      .ok "No active alerts for this state." :=
  ⟨(get_alerts_messages (fun _ => .networkError) "CA").1 rfl,
   (get_alerts_messages (fun _ => .success (Json.obj [("features", Json.arr [])]))
      "CA").2.2.1 [("features", Json.arr [])] rfl rfl⟩

/-- C4: `get_forecast` returns the stage-specific literal message for each of
its four non-success cases: fetch-stage message when the points fetch result
is absent; points-validation message when the (truthy) points response lacks
`properties.forecast`; forecast-fetch message when the forecast fetch result
is absent; forecast-validation message when the (truthy) forecast response
lacks `properties.periods`. -/
theorem get_forecast_stage_messages (env : FetchEnv) (latitude longitude : String) :
    (make_nws_request env (s!"{NWS_API_BASE}/points/{latitude},{longitude}") = none →
      (get_forecast env latitude longitude).1 =
        .ok "Unable to fetch points data for this location.") ∧
    (∀ pd, make_nws_request env (s!"{NWS_API_BASE}/points/{latitude},{longitude}") =
        some (Json.obj pd) → pd ≠ [] →
      (lookupField pd "properties" = none ∨
        ∃ pp, lookupField pd "properties" = some (Json.obj pp) ∧
          lookupField pp "forecast" = none) →
      (get_forecast env latitude longitude).1 =
        .ok "Invalid points data received: missing forecast information.") ∧
    (∀ pd pp u, make_nws_request env (s!"{NWS_API_BASE}/points/{latitude},{longitude}") =
        some (Json.obj pd) →
      lookupField pd "properties" = some (Json.obj pp) →
      lookupField pp "forecast" = some (Json.str u) →
      make_nws_request env u = none →
      (get_forecast env latitude longitude).1 =
        .ok "Unable to fetch forecast data for this location.") ∧
    (∀ pd pp u fd, make_nws_request env (s!"{NWS_API_BASE}/points/{latitude},{longitude}") =
        some (Json.obj pd) →
      lookupField pd "properties" = some (Json.obj pp) →
      lookupField pp "forecast" = some (Json.str u) →
      make_nws_request env u = some (Json.obj fd) → fd ≠ [] →
      (lookupField fd "properties" = none ∨
        ∃ fp, lookupField fd "properties" = some (Json.obj fp) ∧
          lookupField fp "periods" = none) →
      (get_forecast env latitude longitude).1 =
        .ok "Invalid forecast data received: missing period information.") := by
  refine ⟨?_, ?_, ?_, ?_⟩
  · intro h
    simp [get_forecast, h]
  · intro pd h hne hmiss
    rcases hmiss with hnone | ⟨pp, hpp, hfc⟩
    · simp [get_forecast, h, Json.truthy, List.isEmpty_iff, hne, Json.containsKey, hnone]
    · simp [get_forecast, h, Json.truthy, List.isEmpty_iff, hne, Json.containsKey, hpp,
        Json.getItem, hfc]
  · intro pd pp u h hpp hfc hu
    have hne : pd ≠ [] := by
      intro e; subst e; simp [lookupField] at hpp
    simp [get_forecast, h, Json.truthy, List.isEmpty_iff, hne, Json.containsKey, hpp,
      Json.getItem, hfc, get_forecast_stage2, hu]
  · intro pd pp u fd h hpp hfc hu hfdne hmiss
    have hne : pd ≠ [] := by
      intro e; subst e; simp [lookupField] at hpp
    rcases hmiss with hnone | ⟨fp, hfp, hper⟩
    · simp [get_forecast, h, Json.truthy, List.isEmpty_iff, hne, Json.containsKey, hpp,
        Json.getItem, hfc, get_forecast_stage2, hu, hfdne, hnone]
    · simp [get_forecast, h, Json.truthy, List.isEmpty_iff, hne, Json.containsKey, hpp,
        Json.getItem, hfc, get_forecast_stage2, hu, hfdne, hfp, hper]

/-- Witness for C4: four concrete oracles, one per non-success stage of
`get_forecast`. -/
theorem get_forecast_stage_messages_witness :
    (get_forecast (fun _ => .networkError) "39.0" "-77.0").1 =
      .ok "Unable to fetch points data for this location." ∧
    (get_forecast (fun _ => .success (Json.obj [("properties", Json.obj [])]))
        "39.0" "-77.0").1 =
      .ok "Invalid points data received: missing forecast information." ∧
    (get_forecast (fun url => if url = "U" then .networkError
        else .success (Json.obj [("properties", Json.obj [("forecast", Json.str "U")])]))
        "39.0" "-77.0").1 =
      .ok "Unable to fetch forecast data for this location." ∧
    (get_forecast (fun url => if url = "U" then .success (Json.obj [("properties", Json.obj [])])
        else .success (Json.obj [("properties", Json.obj [("forecast", Json.str "U")])]))
        "39.0" "-77.0").1 =
      .ok "Invalid forecast data received: missing period information." :=
  ⟨(get_forecast_stage_messages (fun _ => .networkError) "39.0" "-77.0").1 rfl,
   (get_forecast_stage_messages (fun _ => .success (Json.obj [("properties", Json.obj [])]))
      "39.0" "-77.0").2.1 [("properties", Json.obj [])] rfl (by simp)
      (Or.inr ⟨[], rfl, rfl⟩),
   (get_forecast_stage_messages (fun url => if url = "U" then .networkError
      else .success (Json.obj [("properties", Json.obj [("forecast", Json.str "U")])]))
      "39.0" "-77.0").2.2.1 [("properties", Json.obj [("forecast", Json.str "U")])]
      [("forecast", Json.str "U")] "U" rfl rfl rfl rfl,
   (get_forecast_stage_messages (fun url => if url = "U" then
        .success (Json.obj [("properties", Json.obj [])])
      else .success (Json.obj [("properties", Json.obj [("forecast", Json.str "U")])]))
      "39.0" "-77.0").2.2.2 [("properties", Json.obj [("forecast", Json.str "U")])]
      [("forecast", Json.str "U")] "U" [("properties", Json.obj [])] rfl rfl rfl rfl
      (by simp) (Or.inr ⟨[], rfl, rfl⟩)⟩

/-- The alert block as §4.2 of the spec describes it, defined from the spec's
words for the refinement claim C2: five labeled fields rendered from the
properties mapping, substituting "Unknown" for an absent event, areaDesc, or
severity and the fixed explanatory placeholders for an absent description or
instruction. -/
def alertBlockSpec (props : List (String × Json)) : String :=
  "\nEvent: " ++ ((lookupField props "event").getD (Json.str "Unknown")).pyStr ++
  "\nArea: " ++ ((lookupField props "areaDesc").getD (Json.str "Unknown")).pyStr ++
  "\nSeverity: " ++ ((lookupField props "severity").getD (Json.str "Unknown")).pyStr ++
  "\nDescription: " ++
    ((lookupField props "description").getD (Json.str "No description available")).pyStr ++
  "\nInstructions: " ++
    ((lookupField props "instruction").getD
      (Json.str "No specific instructions provided")).pyStr ++ "\n"

/-- C2: on every alert-feature record (an object whose `properties` is an
object, the shape §3 gives the record), `format_alert` cannot fail and
produces exactly the five-labeled-field block of the spec, each absent field
independently replaced by its fixed placeholder and present fields rendered
unchanged. -/
theorem format_alert_matches_block_spec (feature : Json)
    (fp pp : List (String × Json)) (hfeat : feature = Json.obj fp)
    (hprops : lookupField fp "properties" = some (Json.obj pp)) :
    format_alert feature = .ok (alertBlockSpec pp) := by
  subst hfeat
  simp [format_alert, Json.getItem, hprops, Json.dictGet, alertBlockSpec, bind, Except.bind,
    Functor.map, Except.map, pure, Except.pure]

/-- Witness for C2: the spec's end-to-end example record, whose `properties`
omits severity, description and instruction. -/
theorem format_alert_matches_block_spec_witness :
    format_alert (Json.obj [("properties",
        Json.obj [("event", Json.str "Flood Warning"),
          ("areaDesc", Json.str "XX County")])]) =
      .ok "\nEvent: Flood Warning\nArea: XX County\nSeverity: Unknown\nDescription: No description available\nInstructions: No specific instructions provided\n" := by
  rw [format_alert_matches_block_spec _
    [("properties", Json.obj [("event", Json.str "Flood Warning"),
      ("areaDesc", Json.str "XX County")])]
    [("event", Json.str "Flood Warning"), ("areaDesc", Json.str "XX County")] rfl rfl]
  rfl

/-- Joining two blocks with the separator is plain concatenation. -/
theorem intercalate_two (sep a b : String) :
    String.intercalate sep [a, b] = a ++ sep ++ b := rfl

/-- C6: for every fetch result whose `features` sequence is non-empty,
`get_alerts` returns `format_alert` applied to every feature, in order,
joined with the separator "\n---\n" (the first formatting exception, if any,
propagating); in particular for a two-element sequence the result is
`format(f1) ++ "\n---\n" ++ format(f2)`. -/
theorem get_alerts_joins_formatted_features (env : FetchEnv) (state : String)
    (d : List (String × Json)) (features : List Json)
    (hd : make_nws_request env (s!"{NWS_API_BASE}/alerts/active/area/{state}") =
      some (Json.obj d))
    (hf : lookupField d "features" = some (Json.arr features))
    (hne : features ≠ []) :
    (get_alerts env state).1 =
      (match features.mapM format_alert with
       | .error e => .error e
       | .ok alerts => .ok (String.intercalate "\n---\n" alerts)) ∧
    (∀ f1 f2 s1 s2, features = [f1, f2] → format_alert f1 = .ok s1 →
      format_alert f2 = .ok s2 →
      (get_alerts env state).1 = .ok (s1 ++ "\n---\n" ++ s2)) := by
  have hdne : d ≠ [] := by
    intro e; subst e; simp [lookupField] at hf
  have hmain : (get_alerts env state).1 =
      (match features.mapM format_alert with
       | .error e => .error e
       | .ok alerts => .ok (String.intercalate "\n---\n" alerts)) := by
    have hde : d.isEmpty = false := by simp [List.isEmpty_iff, hdne]
    have hfe : features.isEmpty = false := by simp [List.isEmpty_iff, hne]
    simp [get_alerts, hd, Json.truthy, hde, Json.containsKey, hf, Json.getItem,
      Json.iterateItems, hfe]
    split <;> rfl
  refine ⟨hmain, ?_⟩
  intro f1 f2 s1 s2 hfs h1 h2
  subst hfs
  rw [hmain]
  rw [List.mapM_cons, List.mapM_cons, List.mapM_nil]
  simp [h1, h2, bind, Except.bind, pure, Except.pure, intercalate_two]

/-- Witness for C6: a response carrying two alert features, formatted and
joined with the separator. -/
theorem get_alerts_joins_formatted_features_witness :
    (get_alerts (fun _ => .success (Json.obj [("features", Json.arr
        [Json.obj [("properties", Json.obj [("event", Json.str "Flood Warning")])],
         Json.obj [("properties", Json.obj [("event", Json.str "Heat Advisory"),
           ("severity", Json.str "Moderate")])]])])) "CA").1 =
      .ok ("\nEvent: Flood Warning\nArea: Unknown\nSeverity: Unknown\nDescription: No description available\nInstructions: No specific instructions provided\n"
        ++ "\n---\n" ++
        "\nEvent: Heat Advisory\nArea: Unknown\nSeverity: Moderate\nDescription: No description available\nInstructions: No specific instructions provided\n") :=
  (get_alerts_joins_formatted_features
    (fun _ => .success (Json.obj [("features", Json.arr
        [Json.obj [("properties", Json.obj [("event", Json.str "Flood Warning")])],
         Json.obj [("properties", Json.obj [("event", Json.str "Heat Advisory"),
           ("severity", Json.str "Moderate")])]])]))
    "CA"
    [("features", Json.arr
        [Json.obj [("properties", Json.obj [("event", Json.str "Flood Warning")])],
         Json.obj [("properties", Json.obj [("event", Json.str "Heat Advisory"),
           ("severity", Json.str "Moderate")])]])]
    [Json.obj [("properties", Json.obj [("event", Json.str "Flood Warning")])],
     Json.obj [("properties", Json.obj [("event", Json.str "Heat Advisory"),
       ("severity", Json.str "Moderate")])]]
    rfl rfl (by simp)).2
    (Json.obj [("properties", Json.obj [("event", Json.str "Flood Warning")])])
    (Json.obj [("properties", Json.obj [("event", Json.str "Heat Advisory"),
       ("severity", Json.str "Moderate")])])
    "\nEvent: Flood Warning\nArea: Unknown\nSeverity: Unknown\nDescription: No description available\nInstructions: No specific instructions provided\n"
    "\nEvent: Heat Advisory\nArea: Unknown\nSeverity: Moderate\nDescription: No description available\nInstructions: No specific instructions provided\n"
    rfl rfl rfl

/-- Whatever the outcome of the second fetch, `get_forecast_stage2` records
the second request after the first. -/
theorem get_forecast_stage2_requests (reqs0 : List String) (fetched : Option Json)
    (u : String) : (get_forecast_stage2 reqs0 fetched u).2 = reqs0 ++ [u] := by
  unfold get_forecast_stage2
  rcases fetched with _ | fd
  · rfl
  · repeat' split
    all_goals rfl

/-- C9: when the points fetch of `get_forecast` succeeds and its response
contains `properties.forecast` as a URL string `u`, the second fetch is
issued to exactly `u`, unmodified: the requested URLs are the points URL
followed by `u`. -/
theorem get_forecast_second_fetch_url (env : FetchEnv) (latitude longitude u : String)
    (pd pp : List (String × Json))
    (hd : make_nws_request env (s!"{NWS_API_BASE}/points/{latitude},{longitude}") =
      some (Json.obj pd))
    (hpp : lookupField pd "properties" = some (Json.obj pp))
    (hfc : lookupField pp "forecast" = some (Json.str u)) :
    (get_forecast env latitude longitude).2 =
      [s!"{NWS_API_BASE}/points/{latitude},{longitude}", u] := by
  have hne : pd ≠ [] := by intro e; subst e; simp [lookupField] at hpp
  have hde : pd.isEmpty = false := by simp [List.isEmpty_iff, hne]
  simp [get_forecast, hd, Json.truthy, hde, Json.containsKey, hpp, Json.getItem, hfc,
    get_forecast_stage2_requests]

/-- Witness for C9 at a concrete oracle whose points response names the
forecast URL "U". -/
theorem get_forecast_second_fetch_url_witness :
    (get_forecast
        (fun _ => .success (Json.obj [("properties", Json.obj [("forecast", Json.str "U")])]))
        "39.0" "-77.0").2 =
      ["https://api.weather.gov/points/39.0,-77.0", "U"] :=
  get_forecast_second_fetch_url
    (fun _ => .success (Json.obj [("properties", Json.obj [("forecast", Json.str "U")])]))
    "39.0" "-77.0" "U"
    [("properties", Json.obj [("forecast", Json.str "U")])]
    [("forecast", Json.str "U")] rfl rfl rfl

/-- On the fully validated path (points response with a string forecast URL,
forecast response with a `periods` list), `get_forecast` renders the first
`periods_count` periods and joins them; an exception raised while rendering
propagates. Shared by the validated-path claims. -/
theorem get_forecast_valid_path (env : FetchEnv) (latitude longitude u : String)
    (pd pp fd fp : List (String × Json)) (ps : List Json)
    (hd : make_nws_request env (s!"{NWS_API_BASE}/points/{latitude},{longitude}") =
      some (Json.obj pd))
    (hpp : lookupField pd "properties" = some (Json.obj pp))
    (hfc : lookupField pp "forecast" = some (Json.str u))
    (hu : make_nws_request env u = some (Json.obj fd))
    (hfp : lookupField fd "properties" = some (Json.obj fp))
    (hper : lookupField fp "periods" = some (Json.arr ps)) :
    (get_forecast env latitude longitude).1 =
      match (ps.take 5).mapM periodBlock with
      | .error e => .error e
      | .ok forecasts => .ok (String.intercalate "\n---\n" forecasts) := by
  have hne : pd ≠ [] := by intro e; subst e; simp [lookupField] at hpp
  have hde : pd.isEmpty = false := by simp [List.isEmpty_iff, hne]
  have hfdne : fd ≠ [] := by intro e; subst e; simp [lookupField] at hfp
  have hfde : fd.isEmpty = false := by simp [List.isEmpty_iff, hfdne]
  simp [get_forecast, hd, Json.truthy, hde, Json.containsKey, hpp, Json.getItem, hfc,
    get_forecast_stage2, hu, hfde, hfp, hper, Json.sliceTo, periods_count, Json.iterateItems]
  split <;> rfl

/-- C7: on the fully validated path, `get_forecast` formats exactly the first
5 entries of `periods`, in their given order with no sorting or filtering,
joined with "\n---\n"; and when `periods` has 5 or fewer entries the slice is
the whole sequence, so all available entries are used without error. -/
theorem get_forecast_first_five_periods (env : FetchEnv) (latitude longitude u : String)
    (pd pp fd fp : List (String × Json)) (ps : List Json)
    (hd : make_nws_request env (s!"{NWS_API_BASE}/points/{latitude},{longitude}") =
      some (Json.obj pd))
    (hpp : lookupField pd "properties" = some (Json.obj pp))
    (hfc : lookupField pp "forecast" = some (Json.str u))
    (hu : make_nws_request env u = some (Json.obj fd))
    (hfp : lookupField fd "properties" = some (Json.obj fp))
    (hper : lookupField fp "periods" = some (Json.arr ps)) :
    ((get_forecast env latitude longitude).1 =
      match (ps.take 5).mapM periodBlock with
      | .error e => .error e
      | .ok forecasts => .ok (String.intercalate "\n---\n" forecasts)) ∧
    (ps.length ≤ 5 → ps.take 5 = ps) :=
  ⟨get_forecast_valid_path env latitude longitude u pd pp fd fp ps hd hpp hfc hu hfp hper,
   fun h => List.take_of_length_le h⟩

set_option maxRecDepth 100000 in
/-- Witness for C7: seven periods yield only the first five, in order; three
periods are all used. -/
theorem get_forecast_first_five_periods_witness :
    (get_forecast (fun url => if url = "U" then
        .success (Json.obj [("properties", Json.obj [("periods", Json.arr
          [Json.obj [("name", Json.str "P0"), ("temperature", Json.num 60),
             ("temperatureUnit", Json.str "F"), ("windSpeed", Json.str "5 mph"),
             ("windDirection", Json.str "NW"), ("detailedForecast", Json.str "Clear.")],
           Json.obj [("name", Json.str "P1"), ("temperature", Json.num 60),
             ("temperatureUnit", Json.str "F"), ("windSpeed", Json.str "5 mph"),
             ("windDirection", Json.str "NW"), ("detailedForecast", Json.str "Clear.")],
           Json.obj [("name", Json.str "P2"), ("temperature", Json.num 60),
             ("temperatureUnit", Json.str "F"), ("windSpeed", Json.str "5 mph"),
             ("windDirection", Json.str "NW"), ("detailedForecast", Json.str "Clear.")],
           Json.obj [("name", Json.str "P3"), ("temperature", Json.num 60),
             ("temperatureUnit", Json.str "F"), ("windSpeed", Json.str "5 mph"),
             ("windDirection", Json.str "NW"), ("detailedForecast", Json.str "Clear.")],
           Json.obj [("name", Json.str "P4"), ("temperature", Json.num 60),
             ("temperatureUnit", Json.str "F"), ("windSpeed", Json.str "5 mph"),
             ("windDirection", Json.str "NW"), ("detailedForecast", Json.str "Clear.")],
           Json.obj [("name", Json.str "P5"), ("temperature", Json.num 60),
             ("temperatureUnit", Json.str "F"), ("windSpeed", Json.str "5 mph"),
             ("windDirection", Json.str "NW"), ("detailedForecast", Json.str "Clear.")],
           Json.obj [("name", Json.str "P6"), ("temperature", Json.num 60),
             ("temperatureUnit", Json.str "F"), ("windSpeed", Json.str "5 mph"),
             ("windDirection", Json.str "NW"), ("detailedForecast", Json.str "Clear.")]])])])
      else .success (Json.obj [("properties", Json.obj [("forecast", Json.str "U")])]))
      "39.0" "-77.0").1 =
      .ok ("\nP0\nTemperature: 60°F\nWind: 5 mph NW\nForecast: Clear.\n\n---\n\nP1\nTemperature: 60°F\nWind: 5 mph NW\nForecast: Clear.\n\n---\n\nP2\nTemperature: 60°F\nWind: 5 mph NW\nForecast: Clear.\n\n---\n\nP3\nTemperature: 60°F\nWind: 5 mph NW\nForecast: Clear.\n\n---\n\nP4\nTemperature: 60°F\nWind: 5 mph NW\nForecast: Clear.\n") ∧
    ([Json.obj [("name", Json.str "Q0")], Json.obj [("name", Json.str "Q1")],
      Json.obj [("name", Json.str "Q2")]].take 5 =
     [Json.obj [("name", Json.str "Q0")], Json.obj [("name", Json.str "Q1")],
      Json.obj [("name", Json.str "Q2")]]) := by
  constructor
  · rw [(get_forecast_first_five_periods (fun url => if url = "U" then
        .success (Json.obj [("properties", Json.obj [("periods", Json.arr
          [Json.obj [("name", Json.str "P0"), ("temperature", Json.num 60),
             ("temperatureUnit", Json.str "F"), ("windSpeed", Json.str "5 mph"),
             ("windDirection", Json.str "NW"), ("detailedForecast", Json.str "Clear.")],
           Json.obj [("name", Json.str "P1"), ("temperature", Json.num 60),
             ("temperatureUnit", Json.str "F"), ("windSpeed", Json.str "5 mph"),
             ("windDirection", Json.str "NW"), ("detailedForecast", Json.str "Clear.")],
           Json.obj [("name", Json.str "P2"), ("temperature", Json.num 60),
             ("temperatureUnit", Json.str "F"), ("windSpeed", Json.str "5 mph"),
             ("windDirection", Json.str "NW"), ("detailedForecast", Json.str "Clear.")],
           Json.obj [("name", Json.str "P3"), ("temperature", Json.num 60),
             ("temperatureUnit", Json.str "F"), ("windSpeed", Json.str "5 mph"),
             ("windDirection", Json.str "NW"), ("detailedForecast", Json.str "Clear.")],
           Json.obj [("name", Json.str "P4"), ("temperature", Json.num 60),
             ("temperatureUnit", Json.str "F"), ("windSpeed", Json.str "5 mph"),
             ("windDirection", Json.str "NW"), ("detailedForecast", Json.str "Clear.")],
           Json.obj [("name", Json.str "P5"), ("temperature", Json.num 60),
             ("temperatureUnit", Json.str "F"), ("windSpeed", Json.str "5 mph"),
             ("windDirection", Json.str "NW"), ("detailedForecast", Json.str "Clear.")],
           Json.obj [("name", Json.str "P6"), ("temperature", Json.num 60),
             ("temperatureUnit", Json.str "F"), ("windSpeed", Json.str "5 mph"),
             ("windDirection", Json.str "NW"), ("detailedForecast", Json.str "Clear.")]])])])
      else .success (Json.obj [("properties", Json.obj [("forecast", Json.str "U")])]))
      "39.0" "-77.0" "U" _ _ _ _ _ rfl rfl rfl rfl rfl rfl).1]
    rfl
  · exact (get_forecast_first_five_periods
      (fun _ => .success (Json.obj [("properties", Json.obj
        [("forecast", Json.str "U"),
         ("periods", Json.arr [Json.obj [("name", Json.str "Q0")],
           Json.obj [("name", Json.str "Q1")], Json.obj [("name", Json.str "Q2")]])])]))
      "39.0" "-77.0" "U" _ _ _ _ _ rfl rfl rfl rfl rfl rfl).2 (by decide)

/-- When mapping a fallible function over a list succeeds, it succeeded on
every element. -/
theorem exceptMapM_ok_of_mem {α β ε : Type} (f : α → Except ε β) :
    ∀ (l : List α) (bs : List β), l.mapM f = .ok bs → ∀ a ∈ l, ∃ b, f a = .ok b := by
  intro l
  induction l with
  | nil => intro bs _ a ha; simp at ha
  | cons x xs ih =>
    intro bs h a ha
    rw [List.mapM_cons] at h
    cases hfx : f x with
    | error e => rw [hfx] at h; simp [bind, Except.bind] at h
    | ok y =>
      rw [hfx] at h
      cases hxs : xs.mapM f with
      | error e => rw [hxs] at h; simp [bind, Except.bind] at h
      | ok ys =>
        rcases List.mem_cons.mp ha with rfl | hmem
        · exact ⟨y, hfx⟩
        · exact ih ys hxs a hmem

/-- A period block only renders when all six per-period fields are present. -/
theorem periodBlock_ok_keys (pf : List (String × Json)) (b : String)
    (h : periodBlock (Json.obj pf) = .ok b) :
    (lookupField pf "name").isSome ∧ (lookupField pf "temperature").isSome ∧
    (lookupField pf "temperatureUnit").isSome ∧ (lookupField pf "windSpeed").isSome ∧
    (lookupField pf "windDirection").isSome ∧ (lookupField pf "detailedForecast").isSome := by
  unfold periodBlock at h
  simp only [Json.getItem, bind, Except.bind] at h
  cases h1 : lookupField pf "name" <;> rw [h1] at h
  case none => simp at h
  case some v1 =>
  cases h2 : lookupField pf "temperature" <;> rw [h2] at h
  case none => simp at h
  case some v2 =>
  cases h3 : lookupField pf "temperatureUnit" <;> rw [h3] at h
  case none => simp at h
  case some v3 =>
  cases h4 : lookupField pf "windSpeed" <;> rw [h4] at h
  case none => simp at h
  case some v4 =>
  cases h5 : lookupField pf "windDirection" <;> rw [h5] at h
  case none => simp at h
  case some v5 =>
  cases h6 : lookupField pf "detailedForecast" <;> rw [h6] at h
  case none => simp at h
  case some v6 => simp [h1, h2, h3, h4, h5, h6]

/-- C8: on the validated path, if one of the first 5 period records lacks any
of the six per-period fields, `get_forecast` does not return an error string:
the bracket access is unhandled and the invocation raises, unlike every other
error case of the two tools. -/
theorem get_forecast_missing_period_field_raises (env : FetchEnv)
    (latitude longitude u : String) (pd pp fd fp : List (String × Json))
    (ps : List Json) (p : Json) (pfields : List (String × Json)) (k : String)
    (hd : make_nws_request env (s!"{NWS_API_BASE}/points/{latitude},{longitude}") =
      some (Json.obj pd))
    (hpp : lookupField pd "properties" = some (Json.obj pp))
    (hfc : lookupField pp "forecast" = some (Json.str u))
    (hu : make_nws_request env u = some (Json.obj fd))
    (hfp : lookupField fd "properties" = some (Json.obj fp))
    (hper : lookupField fp "periods" = some (Json.arr ps))
    (hp : p ∈ ps.take 5) (hpobj : p = Json.obj pfields)
    (hk : k ∈ ["name", "temperature", "temperatureUnit", "windSpeed",
      "windDirection", "detailedForecast"])
    (hmiss : lookupField pfields k = none) :
    ∃ e, (get_forecast env latitude longitude).1 = .error e := by
  have hmain := get_forecast_valid_path env latitude longitude u pd pp fd fp ps
    hd hpp hfc hu hfp hper
  cases hm : (ps.take 5).mapM periodBlock with
  | error e => exact ⟨e, by rw [hmain, hm]⟩
  | ok bs =>
    exfalso
    obtain ⟨b, hb⟩ := exceptMapM_ok_of_mem periodBlock (ps.take 5) bs hm p hp
    rw [hpobj] at hb
    have hkeys := periodBlock_ok_keys pfields b hb
    simp only [List.mem_cons, List.not_mem_nil, or_false] at hk
    rcases hk with rfl | rfl | rfl | rfl | rfl | rfl <;>
      simp [hmiss] at hkeys

/-- Witness for C8: a single period lacking `temperature` makes the
invocation raise. -/
theorem get_forecast_missing_period_field_raises_witness :
    ∃ e, (get_forecast (fun _ => .success (Json.obj [("properties", Json.obj
        [("forecast", Json.str "U"),
         ("periods", Json.arr [Json.obj [("name", Json.str "Tonight")]])])]))
      "39.0" "-77.0").1 = Except.error e :=
  get_forecast_missing_period_field_raises
    (fun _ => .success (Json.obj [("properties", Json.obj
        [("forecast", Json.str "U"),
         ("periods", Json.arr [Json.obj [("name", Json.str "Tonight")]])])]))
    "39.0" "-77.0" "U" _ _ _ _ _ (Json.obj [("name", Json.str "Tonight")])
    [("name", Json.str "Tonight")] "temperature"
    rfl rfl rfl rfl rfl rfl (by simp) rfl (by simp) rfl

/-- Rendering an alert record (an object with an object-valued `properties`)
never fails and yields the block of defaults and present fields. -/
theorem format_alert_record_ok (fp pp : List (String × Json))
    (hprops : lookupField fp "properties" = some (Json.obj pp)) :
    format_alert (Json.obj fp) = .ok (alertBlockSpec pp) := by
  simp [format_alert, Json.getItem, hprops, Json.dictGet, alertBlockSpec, bind, Except.bind,
    Functor.map, Except.map, pure, Except.pure]

/-- Mapping a fallible function that succeeds on every element of a list
succeeds on the whole list. -/
theorem exceptMapM_ok_of_all {α β ε : Type} (f : α → Except ε β) :
    ∀ l : List α, (∀ a ∈ l, ∃ b, f a = .ok b) → ∃ bs, l.mapM f = .ok bs := by
  intro l
  induction l with
  | nil => intro _; exact ⟨[], rfl⟩
  | cons x xs ih =>
    intro h
    obtain ⟨y, hy⟩ := h x (by simp)
    obtain ⟨ys, hys⟩ := ih (fun a ha => h a (by simp [ha]))
    exact ⟨y :: ys, by rw [List.mapM_cons, hy, hys]; rfl⟩

/-- C1 counterexample: a fetched response whose `features` list holds an
object without a "properties" key makes `get_alerts` raise a `KeyError`
while formatting, so `get_alerts` does not return a string for every fetch
result. -/
theorem get_alerts_raises_counterexample :
    (get_alerts (fun _ => .success (Json.obj [("features", Json.arr [Json.obj []])]))
      "CA").1 = Except.error (PyError.keyError "properties") := rfl

/-- C1 (amended): `get_alerts` returns a string and never raises for every
fetch result that is absent or a JSON object, provided that whenever the
object carries a truthy `features` value, that value is an array whose
elements are all objects with an object-valued "properties" field; in
particular formatting such features never raises. -/
theorem get_alerts_total_amended (env : FetchEnv) (state : String)
    (hshape : ∀ d, make_nws_request env (s!"{NWS_API_BASE}/alerts/active/area/{state}") =
      some d → ∃ fs, d = Json.obj fs)
    (hfeat : ∀ fs feats,
      make_nws_request env (s!"{NWS_API_BASE}/alerts/active/area/{state}") =
        some (Json.obj fs) →
      lookupField fs "features" = some feats → feats.truthy = true →
      ∃ l, feats = Json.arr l ∧ ∀ f ∈ l, ∃ fp pp, f = Json.obj fp ∧
        lookupField fp "properties" = some (Json.obj pp)) :
    ∃ s, (get_alerts env state).1 = Except.ok s := by
  cases hm : make_nws_request env (s!"{NWS_API_BASE}/alerts/active/area/{state}") with
  | none =>
    exact ⟨"Unable to fetch alerts or no alerts found.", by simp [get_alerts, hm]⟩
  | some d =>
    obtain ⟨fs, rfl⟩ := hshape d hm
    cases fs with
    | nil =>
      exact ⟨"Unable to fetch alerts or no alerts found.",
        by simp [get_alerts, hm, Json.truthy]⟩
    | cons g gs =>
      have hgt : (Json.obj (g :: gs)).truthy = true := by simp [Json.truthy]
      cases hlf : lookupField (g :: gs) "features" with
      | none =>
        exact ⟨"Unable to fetch alerts or no alerts found.",
          by simp [get_alerts, hm, hgt, Json.containsKey, hlf]⟩
      | some feats =>
        cases htr : feats.truthy with
        | false =>
          exact ⟨"No active alerts for this state.",
            by simp [get_alerts, hm, hgt, Json.containsKey, hlf, Json.getItem, htr]⟩
        | true =>
          obtain ⟨l, rfl, hall⟩ := hfeat (g :: gs) feats hm hlf htr
          have hok : ∀ f ∈ l, ∃ b, format_alert f = .ok b := by
            intro f hf
            obtain ⟨fp, pp, hfpe, hpe⟩ := hall f hf
            exact ⟨alertBlockSpec pp, by rw [hfpe]; exact format_alert_record_ok fp pp hpe⟩
          obtain ⟨bs, hbs⟩ := exceptMapM_ok_of_all format_alert l hok
          have hbs2 : List.mapM.loop format_alert l [] = Except.ok bs := hbs
          exact ⟨String.intercalate "\n---\n" bs, by
            simp [get_alerts, hm, hgt, Json.containsKey, hlf, Json.getItem, htr,
              Json.iterateItems, hbs, hbs2]⟩

/-- Witness for the amended C1 at a concrete response with one well-formed
feature. -/
theorem get_alerts_total_amended_witness :
    ∃ s, (get_alerts (fun _ => .success (Json.obj [("features",
      Json.arr [Json.obj [("properties", Json.obj [])]])])) "CA").1 = Except.ok s := by
  apply get_alerts_total_amended
  · intro d hd
    injection hd with h
    exact ⟨_, h.symm⟩
  · intro fs feats h1 h2 h3
    injection h1 with h
    injection h with h
    subst h
    simp [lookupField] at h2
    subst h2
    refine ⟨_, rfl, ?_⟩
    intro f hf
    simp at hf
    subst hf
    exact ⟨[("properties", Json.obj [])], [], rfl, rfl⟩
